import Mathlib

/-!
Verification of the training core of the tfjs dino player
(`src/model-actions.js`): state encoding, the Double-DQN target
computation of `optimizeModel`, the accept/discard logic of one step of
`trainDinoModel`, the epsilon decay formula, and the target-model
synchronisation `updateTargetModel`.

Modelling conventions: JavaScript numbers are modelled as `ℚ` (the
values involved — positions, rewards, time stamps, gamma — are exact
decimals); `Math.exp` is modelled as `Real.exp`, passed as an explicit
function parameter `expFn` where the code calls it, so that the
definitions stay computable; tensors of shape `[1, 88]` are modelled as
the underlying length-88 list; a model (`onlineModel`/`targetModel`) is
modelled as the per-row function `List ℚ → List ℚ` implemented by
`Model.apply` followed by `dataSync`.
-/

open Filter

/-- One raw obstacle observation, as read off the game: horizontal
position, vertical position, width and height (`size`). -/
structure Obstacle where
  xPos : ℚ
  yPos : ℚ
  width : ℚ
  size : ℚ

/-- One raw game state: the upcoming obstacles, the jumping flag, the
t-rex vertical position, the game time stamp and the terminal flag. -/
structure GameState where
  obstacles : List Obstacle
  jumping : Bool
  ypos : ℚ
  time : ℚ
  done : Bool

/-- Truncation toward zero of a rational (the `truncate` step of
ECMAScript's ToInt32). -/
def truncRat (q : ℚ) : ℤ := if 0 ≤ q then ⌊q⌋ else ⌈q⌉

/-- ECMAScript ToInt32's wrap: reduce an integer modulo `2^32` into
`[-2^31, 2^31)` (two's complement). -/
def toInt32 (n : ℤ) : ℤ := (n + 2 ^ 31) % 2 ^ 32 - 2 ^ 31

/-- JavaScript `~~x`: ToInt32 of `x`, i.e. truncation toward zero
followed by the int32 wrap. -/
def jsTrunc (q : ℚ) : ℤ := toInt32 (truncRat q)

/-- The distance bucket computed in `obstacleToVector`:
`Math.min(39, Math.max(0, ~~((obstacle.xPos - 19) / 16)))`. -/
def distanceBucket (xPos : ℚ) : ℤ :=
  min 39 (max 0 (jsTrunc ((xPos - 19) / 16)))

/-- The spec's formula for the bucket, written with a true floor:
`clamp(floor((xPos − 19) / 16), 0, 39)`.  Compared against
`distanceBucket`, which is the code's truncation-based version. -/
def clampFloorBucket (xPos : ℚ) : ℤ :=
  min 39 (max 0 ⌊(xPos - 19) / 16⌋)

/-- `obstacleToVector(obstacle, vector, offset)`: writes the one-hot
distance bit and then the unquantized y-position, width and height into
the 43-wide block starting at `offset`. -/
def obstacleToVector (obstacle : Obstacle) (vector : List ℚ) (offset : ℕ) : List ℚ :=
  let distance := (distanceBucket obstacle.xPos).toNat
  ((((vector.set (offset + distance) 1).set (offset + 40) obstacle.yPos).set
      (offset + 41) obstacle.width).set (offset + 42) obstacle.size)

/-- `stateToTensor(state)`: a zero-filled length-88 vector, obstacle 0
encoded at offset 0 when present, obstacle 1 at offset 43 when present,
the jumping flag at index 86 and the t-rex y-position at index 87. -/
def stateToTensor (state : GameState) : List ℚ :=
  let vector : List ℚ := List.replicate 88 0
  let vector :=
    match state.obstacles with
    | [] => vector
    | [o0] => obstacleToVector o0 vector 0
    | o0 :: o1 :: _ => obstacleToVector o1 (obstacleToVector o0 vector 0) 43
  let vector := if state.jumping then vector.set 86 1 else vector
  vector.set 87 state.ypos

/- ### Helper lemmas about list access -/

lemma getD_set_ne (l : List ℚ) (i j : ℕ) (a : ℚ) (h : i ≠ j) :
    (l.set i a).getD j 0 = l.getD j 0 := by
  simp [List.getD_eq_getElem?_getD, List.getElem?_set_ne h]

lemma getD_set_self (l : List ℚ) (i : ℕ) (a : ℚ) (h : i < l.length) :
    (l.set i a).getD i 0 = a := by
  simp [List.getD_eq_getElem?_getD, List.getElem?_set_self, h]

lemma getD_replicate_zero (n i : ℕ) (h : i < n) :
    (List.replicate n (0 : ℚ)).getD i 0 = 0 := by
  simp [List.getD_eq_getElem?_getD, List.getElem?_replicate, h]

lemma toInt32_eq_self (n : ℤ) (h1 : -2 ^ 31 ≤ n) (h2 : n < 2 ^ 31) :
    toInt32 n = n := by
  unfold toInt32
  have h : (n + 2 ^ 31) % 2 ^ 32 = n + 2 ^ 31 :=
    Int.emod_eq_of_lt (by omega) (by omega)
  omega

lemma distanceBucket_nonneg (x : ℚ) : 0 ≤ distanceBucket x := by
  unfold distanceBucket
  exact le_min (by norm_num) (le_max_left 0 _)

lemma distanceBucket_le (x : ℚ) : distanceBucket x ≤ 39 := min_le_left _ _

lemma distanceBucket_toNat_le (x : ℚ) : (distanceBucket x).toNat ≤ 39 := by
  have h := distanceBucket_le x
  omega

lemma obstacleToVector_length (o : Obstacle) (v : List ℚ) (offset : ℕ) :
    (obstacleToVector o v offset).length = v.length := by
  simp [obstacleToVector]

lemma obstacleToVector_getD_of_ge (o : Obstacle) (v : List ℚ) (offset i : ℕ)
    (h : offset + 43 ≤ i) :
    (obstacleToVector o v offset).getD i 0 = v.getD i 0 := by
  have hd : (distanceBucket o.xPos).toNat ≤ 39 := distanceBucket_toNat_le o.xPos
  unfold obstacleToVector
  rw [getD_set_ne _ _ _ _ (by omega), getD_set_ne _ _ _ _ (by omega),
    getD_set_ne _ _ _ _ (by omega), getD_set_ne _ _ _ _ (by omega)]

lemma tail_sets_getD (v : List ℚ) (yp : ℚ) (jmp : Bool) (i : ℕ) (h : i < 86) :
    ((if jmp then v.set 86 1 else v).set 87 yp).getD i 0 = v.getD i 0 := by
  rw [getD_set_ne _ _ _ _ (by omega)]
  cases jmp
  · simp only [Bool.false_eq_true, if_false]
  · simp only [if_true]
    exact getD_set_ne _ _ _ _ (by omega)

/- ### C3: bucket math -/

/-- C3 counterexample: at `xPos = 19 + 16·2^31` (well beyond
`19 + 39·16`), the truncated scaled distance is exactly `2^31`, which
`~~` wraps to `−2^31`, so the code's bucket is 0 where the claim's
`clamp(floor((xPos − 19)/16), 0, 39)` is 39 — the bucket does wrap. -/
theorem distance_bucket_wrap_counterexample :
    (19 : ℚ) + 39 * 16 ≤ 19 + 16 * 2 ^ 31 ∧
    distanceBucket (19 + 16 * 2 ^ 31) = 0 ∧
    clampFloorBucket (19 + 16 * 2 ^ 31) = 39 := by
  refine ⟨by norm_num, ?_, ?_⟩
  · have h1 : ((19 : ℚ) + 16 * 2 ^ 31 - 19) / 16 = 2 ^ 31 := by norm_num
    have h2 : truncRat ((2 : ℚ) ^ 31) = 2 ^ 31 := by
      unfold truncRat
      rw [if_pos (by positivity),
        show ((2 : ℚ) ^ 31) = ((2 ^ 31 : ℤ) : ℚ) by push_cast; ring, Int.floor_intCast]
    unfold distanceBucket jsTrunc
    rw [h1, h2]
    norm_num [toInt32]
  · have h1 : ((19 : ℚ) + 16 * 2 ^ 31 - 19) / 16 = 2 ^ 31 := by norm_num
    have h2 : ⌊(2 : ℚ) ^ 31⌋ = 2 ^ 31 := by
      rw [show ((2 : ℚ) ^ 31) = ((2 ^ 31 : ℤ) : ℚ) by push_cast; ring, Int.floor_intCast]
    unfold clampFloorBucket
    rw [h1, h2]
    norm_num

/-- C3 amended: for every obstacle x-position whose truncated scaled
distance `trunc((xPos − 19)/16)` lies in int32 range `[−2^31, 2^31)` —
which covers every distance the game produces (`xPos` between 0 and
625) — the code's bucket equals the spec's
`clamp(floor((xPos − 19) / 16), 0, 39)`; within that range it is 0 for
every `xPos ≤ 19` and 39 for every `xPos ≥ 19 + 39*16`; and
`obstacleToVector` always sets the one-hot bit exactly at the bucket's
index inside the obstacle's block. -/
theorem distance_bucket_clamped_int32 (x : ℚ)
    (hlo : -2 ^ 31 ≤ truncRat ((x - 19) / 16))
    (hhi : truncRat ((x - 19) / 16) < 2 ^ 31) :
    distanceBucket x = clampFloorBucket x ∧
    (x ≤ 19 → distanceBucket x = 0) ∧
    (19 + 39 * 16 ≤ x → distanceBucket x = 39) ∧
    (∀ (o : Obstacle) (v : List ℚ) (offset : ℕ), offset + 42 < v.length →
      (obstacleToVector o v offset).getD (offset + (distanceBucket o.xPos).toNat) 0 = 1) := by
  have hjt : jsTrunc ((x - 19) / 16) = truncRat ((x - 19) / 16) :=
    toInt32_eq_self _ hlo hhi
  refine ⟨?_, ?_, ?_, ?_⟩
  · by_cases h : 0 ≤ (x - 19) / 16
    · simp [distanceBucket, clampFloorBucket, hjt, truncRat, h]
    · push_neg at h
      have hc : ⌈(x - 19) / 16⌉ ≤ 0 := Int.ceil_le.mpr (by exact_mod_cast h.le)
      have hf : ⌊(x - 19) / 16⌋ ≤ 0 := le_trans (Int.floor_le_ceil _) hc
      simp [distanceBucket, clampFloorBucket, hjt, truncRat, not_le.mpr h,
        max_eq_left hc, max_eq_left hf]
  · intro hx
    have hq : (x - 19) / 16 ≤ 0 := by
      have h19 : x - 19 ≤ 0 := by linarith
      calc (x - 19) / 16 ≤ 0 / 16 := by
            exact (div_le_div_right (by norm_num)).mpr h19
        _ = 0 := by norm_num
    have ht : truncRat ((x - 19) / 16) ≤ 0 := by
      unfold truncRat
      split
      · exact Int.floor_le_floor hq |>.trans (by simp)
      · exact Int.ceil_le.mpr (by exact_mod_cast hq)
    simp [distanceBucket, hjt, max_eq_left ht]
  · intro hx
    have hq : (39 : ℚ) ≤ (x - 19) / 16 := by
      rw [le_div_iff (by norm_num)]
      linarith
    have h0 : (0 : ℚ) ≤ (x - 19) / 16 := le_trans (by norm_num) hq
    have hf : (39 : ℤ) ≤ ⌊(x - 19) / 16⌋ := Int.le_floor.mpr (by exact_mod_cast hq)
    have ht : (39 : ℤ) ≤ truncRat ((x - 19) / 16) := by
      unfold truncRat
      rw [if_pos h0]
      exact hf
    unfold distanceBucket
    rw [hjt, max_eq_right (by omega), min_eq_left ht]
  · intro o v offset hlen
    have hd : (distanceBucket o.xPos).toNat ≤ 39 := distanceBucket_toNat_le o.xPos
    unfold obstacleToVector
    rw [getD_set_ne _ _ _ _ (by omega), getD_set_ne _ _ _ _ (by omega),
      getD_set_ne _ _ _ _ (by omega), getD_set_self]
    simpa using by omega

/-- Witness for the amended C3 at `xPos = 700 ≥ 19 + 39*16`: the
truncated scaled distance 42 is far inside int32 range, and the bucket
saturates at 39. -/
theorem distance_bucket_clamped_int32_witness :
    (19 : ℚ) + 39 * 16 ≤ 700 ∧ distanceBucket 700 = 39 :=
  ⟨by norm_num,
    (distance_bucket_clamped_int32 700 (by norm_num [truncRat])
      (by norm_num [truncRat])).2.2.1 (by norm_num)⟩

/- ### C8: the encoder is total, 88-wide, with zero-filled unused blocks -/

/-- C8: `stateToTensor` is total by construction and always yields a
length-88 vector; with at most one obstacle, the second obstacle block
(indices 43–85) stays all-zero, and with no obstacles every index below
86 stays zero. -/
theorem state_to_tensor_shape (s : GameState) :
    (stateToTensor s).length = 88 ∧
    (s.obstacles.length ≤ 1 →
      ∀ i, 43 ≤ i → i < 86 → (stateToTensor s).getD i 0 = 0) ∧
    (s.obstacles = [] → ∀ i, i < 86 → (stateToTensor s).getD i 0 = 0) := by
  obtain ⟨obs, jmp, yp, tm, dn⟩ := s
  refine ⟨?_, ?_, ?_⟩
  · rcases obs with _ | ⟨o0, _ | ⟨o1, rest⟩⟩ <;>
      cases jmp <;>
        simp [stateToTensor, obstacleToVector_length]
  · intro hlen i h43 h86
    rcases obs with _ | ⟨o0, _ | ⟨o1, rest⟩⟩
    · simp only [stateToTensor]
      rw [tail_sets_getD _ _ _ _ h86]
      exact getD_replicate_zero 88 i (by omega)
    · simp only [stateToTensor]
      rw [tail_sets_getD _ _ _ _ h86, obstacleToVector_getD_of_ge _ _ _ _ (by omega)]
      exact getD_replicate_zero 88 i (by omega)
    · simp at hlen
  · intro hobs i h86
    have hobs' : obs = [] := hobs
    subst hobs'
    simp only [stateToTensor]
    rw [tail_sets_getD _ _ _ _ h86]
    exact getD_replicate_zero 88 i (by omega)

/-- Witness for C8 on the empty-obstacle state: length 88, and index 50
of the unused second block is zero. -/
theorem state_to_tensor_shape_witness :
    (stateToTensor ⟨[], false, 93, 0, false⟩).length = 88 ∧
    (stateToTensor ⟨[], false, 93, 0, false⟩).getD 50 0 = 0 :=
  ⟨(state_to_tensor_shape ⟨[], false, 93, 0, false⟩).1,
    (state_to_tensor_shape ⟨[], false, 93, 0, false⟩).2.2 rfl 50 (by decide)⟩

/- ### The optimizer step of `optimizeModel` -/

/-- One stored transition, as pushed by `memory.add` in
`trainDinoModel`. -/
structure Experience where
  state : List ℚ
  action : ℕ
  reward : ℚ
  nextState : List ℚ
  done : Bool

/-- `tf.argMax(-1)` on one row of Q-values: the index of the first
occurrence of the maximum entry (`argmaxFirst [] = 0` by convention; a
model output row is never empty). -/
def argmaxFirst : List ℚ → ℕ
  | [] => 0
  | [_] => 0
  | x :: y :: rest =>
      if x < (y :: rest).getD (argmaxFirst (y :: rest)) 0
      then argmaxFirst (y :: rest) + 1 else 0

/-- One row of the regression targets built by `optimizeModel` (the body
of its `for` loop over the batch): the online model's current prediction
for `state`, with the taken action's entry overwritten by the Double-DQN
target value — `reward` when `done`, else
`reward + gamma * targetQ(nextState)[argmax(onlineQ(nextState))]`.  The
source's flattened indexing `targetModelNextQValues[noOfActions*i + a]`
is row `i`, entry `a`, i.e. `(targetQ e.nextState).getD a 0` here. -/
def doubleDQNTargetRow (onlineQ targetQ : List ℚ → List ℚ) (gamma : ℚ)
    (e : Experience) : List ℚ :=
  let targetQValue :=
    if e.done then e.reward
    else e.reward + gamma * (targetQ e.nextState).getD (argmaxFirst (onlineQ e.nextState)) 0
  (onlineQ e.state).set e.action targetQValue

/-- The full `targets` matrix built by `optimizeModel` over the sampled
batch, row `i` from `experiences[i]`. -/
def computeTargets (onlineQ targetQ : List ℚ → List ℚ) (gamma : ℚ)
    (experiences : List Experience) : List (List ℚ) :=
  experiences.map (doubleDQNTargetRow onlineQ targetQ gamma)

lemma computeTargets_getD (onlineQ targetQ : List ℚ → List ℚ) (gamma : ℚ)
    (exps : List Experience) (i : ℕ) (h : i < exps.length) :
    (computeTargets onlineQ targetQ gamma exps).getD i []
      = doubleDQNTargetRow onlineQ targetQ gamma (exps.get ⟨i, h⟩) := by
  simp [computeTargets, List.getD_eq_getElem?_getD, List.getElem?_map,
    List.getElem?_eq_getElem h]

/- ### C1: Double-DQN target for non-terminal transitions -/

/-- C1: for every batch entry with `done = false`, the target row holds
`reward + gamma * targetQ(nextState)[argmax(onlineQ(nextState))]` at the
taken action's index (action chosen by the online model, value taken
from the target model), and coincides with the online model's current
prediction everywhere else. -/
theorem double_dqn_target_nonterminal
    (onlineQ targetQ : List ℚ → List ℚ) (gamma : ℚ)
    (exps : List Experience) (i : ℕ) (h : i < exps.length)
    (hdone : (exps.get ⟨i, h⟩).done = false)
    (hact : (exps.get ⟨i, h⟩).action < (onlineQ (exps.get ⟨i, h⟩).state).length) :
    ((computeTargets onlineQ targetQ gamma exps).getD i []).getD
        (exps.get ⟨i, h⟩).action 0
      = (exps.get ⟨i, h⟩).reward
        + gamma * (targetQ (exps.get ⟨i, h⟩).nextState).getD
            (argmaxFirst (onlineQ (exps.get ⟨i, h⟩).nextState)) 0 ∧
    ∀ j, j ≠ (exps.get ⟨i, h⟩).action →
      ((computeTargets onlineQ targetQ gamma exps).getD i []).getD j 0
        = (onlineQ (exps.get ⟨i, h⟩).state).getD j 0 := by
  rw [computeTargets_getD onlineQ targetQ gamma exps i h]
  constructor
  · simp only [doubleDQNTargetRow, hdone, Bool.false_eq_true, if_false]
    exact getD_set_self _ _ _ hact
  · intro j hj
    simp only [doubleDQNTargetRow]
    exact getD_set_ne _ _ _ _ (Ne.symm hj)

/-- Witness for C1: a one-element batch with a non-terminal transition;
the online next-state row `[5, 7]` has argmax 1, so the bootstrap value
is the target model's entry 13, giving target `1/2 + 9/10 * 13`; the
untaken entry stays the online prediction 7. -/
theorem double_dqn_target_nonterminal_witness :
    ((computeTargets (fun _ => ([5, 7] : List ℚ)) (fun _ => ([11, 13] : List ℚ))
        (9 / 10) [⟨[1], 0, 1 / 2, [2], false⟩]).getD 0 []).getD 0 0
      = 1 / 2 + 9 / 10 * 13 ∧
    ((computeTargets (fun _ => ([5, 7] : List ℚ)) (fun _ => ([11, 13] : List ℚ))
        (9 / 10) [⟨[1], 0, 1 / 2, [2], false⟩]).getD 0 []).getD 1 0 = 7 := by
  have h := double_dqn_target_nonterminal (fun _ => ([5, 7] : List ℚ))
    (fun _ => ([11, 13] : List ℚ)) (9 / 10) [⟨[1], 0, 1 / 2, [2], false⟩] 0
    (by decide) rfl (by decide)
  constructor
  · have h1 := h.1
    norm_num [argmaxFirst] at h1 ⊢
    exact h1
  · have h2 := h.2 1 (by decide)
    simpa using h2

/- ### C2: Double-DQN target for terminal transitions -/

/-- C2: for every batch entry with `done = true`, the target row holds
exactly `reward` at the taken action's index, for every `gamma`, every
target model and every online model. -/
theorem double_dqn_target_terminal
    (onlineQ targetQ : List ℚ → List ℚ) (gamma : ℚ)
    (exps : List Experience) (i : ℕ) (h : i < exps.length)
    (hdone : (exps.get ⟨i, h⟩).done = true)
    (hact : (exps.get ⟨i, h⟩).action < (onlineQ (exps.get ⟨i, h⟩).state).length) :
    ((computeTargets onlineQ targetQ gamma exps).getD i []).getD
        (exps.get ⟨i, h⟩).action 0
      = (exps.get ⟨i, h⟩).reward := by
  rw [computeTargets_getD onlineQ targetQ gamma exps i h]
  simp only [doubleDQNTargetRow, hdone, if_true]
  exact getD_set_self _ _ _ hact

/-- Witness for C2: a terminal transition keeps exactly its reward `-1`
as the target, with a nonzero `gamma` and nonzero target-model output. -/
theorem double_dqn_target_terminal_witness :
    ((computeTargets (fun _ => ([5, 7] : List ℚ)) (fun _ => ([11, 13] : List ℚ))
        (9 / 10) [⟨[1], 1, -1, [2], true⟩]).getD 0 []).getD 1 0 = -1 := by
  have h := double_dqn_target_terminal (fun _ => ([5, 7] : List ℚ))
    (fun _ => ([11, 13] : List ℚ)) (9 / 10) [⟨[1], 1, -1, [2], true⟩] 0
    (by decide) rfl (by decide)
  simpa using h

/- ### One step of the inner loop of `trainDinoModel` -/

/-- Modelled from the spec: `Memory.add` of `src/Memory.js` (the Memory
module itself is not among the provided sources).  Spec §4.2: bounded
FIFO — "if at capacity, evict strictly the oldest entry before inserting
the new one"; the buffer is kept oldest-first. -/
def memoryAdd (capacity : ℕ) (buffer : List Experience) (x : Experience) :
    List Experience :=
  if capacity ≤ buffer.length then buffer.drop 1 ++ [x] else buffer ++ [x]

/-- The epsilon decay expression of `trainDinoModel`:
`epsilonEnd + (epsilonStart - epsilonEnd) * Math.exp(-1 * episode / epsilonDecay)`.
`Math.exp` is passed in as `expFn`, and the carrier `E` of epsilon values
is kept generic (the theorems use `E = ℝ` with `expFn = Real.exp`) so the
definition stays executable. -/
def epsilonFormula {E : Type} [NatCast E] [Neg E] [Add E] [Sub E] [Mul E] [Div E] [One E]
    (expFn : E → E) (epsilonStart epsilonEnd epsilonDecay : E) (episode : ℕ) : E :=
  epsilonEnd + (epsilonStart - epsilonEnd) * expFn (-1 * (episode : E) / epsilonDecay)

/-- Observable outcome of one iteration of the inner `while` loop of
`trainDinoModel`: the replay buffer, reward accumulator and epsilon after
the step, whether the time-delta warning was printed, the optimization
exception that was caught (if any), and the transition passed to
`memory.add` (if any). -/
structure StepResult (E : Type) where
  memory : List Experience
  episodeReward : ℚ
  epsilon : E
  warned : Bool
  caught : Option String
  added : Option Experience

/-- One iteration of the inner `while` loop of `trainDinoModel`, from the
optimization block down to `state = nextState`.  External interactions
enter as arguments: `action` is whatever `selectAction` returned,
`optOutcome` is the result of the `memory.sample` + `optimizeModel` call
(it runs only when `memory.buffer.length >= batchSize`, and its exception
is caught and logged), and `nextState` is the state obtained after the
polling loop.  The step is discarded when the time delta lies outside
`[40, 60]` (warning only when not terminal), otherwise the reward is
assigned (−1 terminal, 0 for a jump, 0.1 otherwise), accumulated, the
transition stored, and epsilon re-evaluated from the episode index. -/
def loopStep {E : Type} [NatCast E] [Neg E] [Add E] [Sub E] [Mul E] [Div E] [One E]
    (expFn : E → E) (batchSize capacity : ℕ)
    (epsilonStart epsilonEnd epsilonDecay : E) (episode : ℕ)
    (epsilon : E) (episodeReward : ℚ) (memory : List Experience)
    (state : GameState) (action : ℕ) (optOutcome : Except String ℚ)
    (nextState : GameState) : StepResult E :=
  let caught : Option String :=
    if batchSize ≤ memory.length then
      match optOutcome with
      | Except.error e => some e
      | Except.ok _ => none
    else none
  let timeDelta := nextState.time - state.time
  if timeDelta < 40 ∨ 60 < timeDelta then
    { memory := memory, episodeReward := episodeReward, epsilon := epsilon,
      warned := !nextState.done, caught := caught, added := none }
  else
    let reward : ℚ := if nextState.done then -1 else if action = 1 then 0 else 1 / 10
    let experience : Experience :=
      { state := stateToTensor state, action := action, reward := reward,
        nextState := stateToTensor nextState, done := nextState.done }
    { memory := memoryAdd capacity memory experience,
      episodeReward := episodeReward + reward,
      epsilon := epsilonFormula expFn epsilonStart epsilonEnd epsilonDecay episode,
      warned := false, caught := caught, added := some experience }

/- ### C4: the timing window -/

/-- C4: a step whose time delta is below 40 ms or above 60 ms is
discarded — the replay buffer, the reward accumulator and epsilon are
unchanged, nothing is added, and the warning fires exactly when the next
state is not terminal; a step with delta inside `[40, 60]` adds a
transition. -/
theorem timing_window_discard_accept (expFn : ℝ → ℝ) (batchSize capacity : ℕ)
    (epsilonStart epsilonEnd epsilonDecay epsilon : ℝ) (episode : ℕ)
    (episodeReward : ℚ) (memory : List Experience) (state : GameState)
    (action : ℕ) (optOutcome : Except String ℚ) (nextState : GameState) :
    (nextState.time - state.time < 40 ∨ 60 < nextState.time - state.time →
      (loopStep expFn batchSize capacity epsilonStart epsilonEnd epsilonDecay episode
          epsilon episodeReward memory state action optOutcome nextState).memory = memory ∧
      (loopStep expFn batchSize capacity epsilonStart epsilonEnd epsilonDecay episode
          epsilon episodeReward memory state action optOutcome nextState).episodeReward
        = episodeReward ∧
      (loopStep expFn batchSize capacity epsilonStart epsilonEnd epsilonDecay episode
          epsilon episodeReward memory state action optOutcome nextState).epsilon = epsilon ∧
      (loopStep expFn batchSize capacity epsilonStart epsilonEnd epsilonDecay episode
          epsilon episodeReward memory state action optOutcome nextState).added = none ∧
      ((loopStep expFn batchSize capacity epsilonStart epsilonEnd epsilonDecay episode
          epsilon episodeReward memory state action optOutcome nextState).warned = true
        ↔ nextState.done = false)) ∧
    (40 ≤ nextState.time - state.time → nextState.time - state.time ≤ 60 →
      (loopStep expFn batchSize capacity epsilonStart epsilonEnd epsilonDecay episode
          epsilon episodeReward memory state action optOutcome nextState).added ≠ none) := by
  constructor
  · intro h
    simp only [loopStep]
    rw [if_pos h]
    refine ⟨rfl, rfl, rfl, rfl, ?_⟩
    cases hb : nextState.done <;> simp [hb]
  · intro h40 h60
    simp only [loopStep]
    rw [if_neg (by push_neg; exact ⟨h40, h60⟩)]
    simp

/-- Witness for C4: a non-terminal step with delta exactly 25 ms is
discarded (buffer, reward accumulator and epsilon untouched, warning
printed), and a step with delta 45 ms adds a transition. -/
theorem timing_window_discard_accept_witness :
    (loopStep Real.exp 64 40000 0 (1 / 100) 200 0 5 2 []
        ⟨[], false, 93, 0, false⟩ 0 (Except.ok 0) ⟨[], false, 93, 25, false⟩).memory = [] ∧
    (loopStep Real.exp 64 40000 0 (1 / 100) 200 0 5 2 []
        ⟨[], false, 93, 0, false⟩ 0 (Except.ok 0) ⟨[], false, 93, 25, false⟩).episodeReward = 2 ∧
    (loopStep Real.exp 64 40000 0 (1 / 100) 200 0 5 2 []
        ⟨[], false, 93, 0, false⟩ 0 (Except.ok 0) ⟨[], false, 93, 25, false⟩).epsilon = 5 ∧
    (loopStep Real.exp 64 40000 0 (1 / 100) 200 0 5 2 []
        ⟨[], false, 93, 0, false⟩ 0 (Except.ok 0) ⟨[], false, 93, 25, false⟩).warned = true ∧
    (loopStep Real.exp 64 40000 0 (1 / 100) 200 0 5 2 []
        ⟨[], false, 93, 0, false⟩ 0 (Except.ok 0) ⟨[], false, 93, 45, false⟩).added ≠ none := by
  have hd := (timing_window_discard_accept Real.exp 64 40000 0 (1 / 100) 200 5 0 2 []
    ⟨[], false, 93, 0, false⟩ 0 (Except.ok 0) ⟨[], false, 93, 25, false⟩).1 (by norm_num)
  have ha := (timing_window_discard_accept Real.exp 64 40000 0 (1 / 100) 200 5 0 2 []
    ⟨[], false, 93, 0, false⟩ 0 (Except.ok 0) ⟨[], false, 93, 45, false⟩).2
    (by norm_num) (by norm_num)
  exact ⟨hd.1, hd.2.1, hd.2.2.1, hd.2.2.2.2.mpr rfl, ha⟩

/- ### C5: reward policy on accepted steps -/

/-- C5: on every accepted step the stored transition carries reward −1
when the next state is terminal, 0 when the taken action was jump
(action 1), and 0.1 otherwise; that same reward is accumulated into the
episode reward, and the transition handed to `memory.add` carries it. -/
theorem accepted_step_reward_policy (expFn : ℝ → ℝ) (batchSize capacity : ℕ)
    (epsilonStart epsilonEnd epsilonDecay epsilon : ℝ) (episode : ℕ)
    (episodeReward : ℚ) (memory : List Experience) (state : GameState)
    (action : ℕ) (optOutcome : Except String ℚ) (nextState : GameState)
    (h40 : 40 ≤ nextState.time - state.time)
    (h60 : nextState.time - state.time ≤ 60) :
    (loopStep expFn batchSize capacity epsilonStart epsilonEnd epsilonDecay episode
        epsilon episodeReward memory state action optOutcome nextState).added
      = some
          { state := stateToTensor state, action := action,
            reward := if nextState.done then -1 else if action = 1 then 0 else 1 / 10,
            nextState := stateToTensor nextState, done := nextState.done } ∧
    (loopStep expFn batchSize capacity epsilonStart epsilonEnd epsilonDecay episode
        epsilon episodeReward memory state action optOutcome nextState).episodeReward
      = episodeReward
        + (if nextState.done then -1 else if action = 1 then 0 else 1 / 10) ∧
    (loopStep expFn batchSize capacity epsilonStart epsilonEnd epsilonDecay episode
        epsilon episodeReward memory state action optOutcome nextState).memory
      = memoryAdd capacity memory
          { state := stateToTensor state, action := action,
            reward := if nextState.done then -1 else if action = 1 then 0 else 1 / 10,
            nextState := stateToTensor nextState, done := nextState.done } := by
  simp only [loopStep]
  rw [if_neg (by push_neg; exact ⟨h40, h60⟩)]
  exact ⟨rfl, rfl, rfl⟩

/-- Witness for C5: with an accumulator at 2, a terminal step stores
reward −1 (accumulator 1), a non-terminal jump stores 0 (accumulator 2),
and a non-terminal non-jump stores 0.1 (accumulator 21/10). -/
theorem accepted_step_reward_policy_witness :
    (loopStep Real.exp 64 40000 0 (1 / 100) 200 0 5 2 []
        ⟨[], false, 93, 0, false⟩ 0 (Except.ok 0) ⟨[], false, 93, 45, true⟩).episodeReward = 1 ∧
    (loopStep Real.exp 64 40000 0 (1 / 100) 200 0 5 2 []
        ⟨[], false, 93, 0, false⟩ 1 (Except.ok 0) ⟨[], false, 93, 45, false⟩).episodeReward = 2 ∧
    (loopStep Real.exp 64 40000 0 (1 / 100) 200 0 5 2 []
        ⟨[], false, 93, 0, false⟩ 0 (Except.ok 0) ⟨[], false, 93, 45, false⟩).episodeReward
      = 21 / 10 ∧
    (loopStep Real.exp 64 40000 0 (1 / 100) 200 0 5 2 []
        ⟨[], false, 93, 0, false⟩ 0 (Except.ok 0) ⟨[], false, 93, 45, true⟩).added
      = some ⟨stateToTensor ⟨[], false, 93, 0, false⟩, 0, -1,
          stateToTensor ⟨[], false, 93, 45, true⟩, true⟩ := by
  have h1 := accepted_step_reward_policy Real.exp 64 40000 0 (1 / 100) 200 5 0 2 []
    ⟨[], false, 93, 0, false⟩ 0 (Except.ok 0) ⟨[], false, 93, 45, true⟩
    (by norm_num) (by norm_num)
  have h2 := accepted_step_reward_policy Real.exp 64 40000 0 (1 / 100) 200 5 0 2 []
    ⟨[], false, 93, 0, false⟩ 1 (Except.ok 0) ⟨[], false, 93, 45, false⟩
    (by norm_num) (by norm_num)
  have h3 := accepted_step_reward_policy Real.exp 64 40000 0 (1 / 100) 200 5 0 2 []
    ⟨[], false, 93, 0, false⟩ 0 (Except.ok 0) ⟨[], false, 93, 45, false⟩
    (by norm_num) (by norm_num)
  refine ⟨?_, ?_, ?_, ?_⟩
  · have := h1.2.1
    norm_num at this
    exact this
  · have := h2.2.1
    norm_num at this
    exact this
  · have := h3.2.1
    norm_num at this
    exact this
  · have := h1.1
    norm_num at this
    exact this

/- ### C6: epsilon decay formula, monotone and convergent -/

/-- C6: after every accepted step, epsilon equals
`epsilonEnd + (epsilonStart − epsilonEnd) * exp(−episode / epsilonDecay)`
for the current episode index; for `epsilonStart > epsilonEnd` and
`epsilonDecay > 0` that formula is strictly decreasing in the episode
index and converges to `epsilonEnd`. -/
theorem epsilon_decay_formula_monotone_convergent
    (epsilonStart epsilonEnd epsilonDecay epsilon : ℝ)
    (episode batchSize capacity : ℕ) (episodeReward : ℚ)
    (memory : List Experience) (state : GameState) (action : ℕ)
    (optOutcome : Except String ℚ) (nextState : GameState)
    (h40 : 40 ≤ nextState.time - state.time)
    (h60 : nextState.time - state.time ≤ 60) :
    (loopStep Real.exp batchSize capacity epsilonStart epsilonEnd epsilonDecay episode
        epsilon episodeReward memory state action optOutcome nextState).epsilon
      = epsilonEnd + (epsilonStart - epsilonEnd) * Real.exp (-(episode : ℝ) / epsilonDecay) ∧
    (epsilonEnd < epsilonStart → 0 < epsilonDecay →
      StrictAnti (fun n : ℕ =>
        epsilonFormula Real.exp epsilonStart epsilonEnd epsilonDecay n) ∧
      Tendsto (fun n : ℕ => epsilonFormula Real.exp epsilonStart epsilonEnd epsilonDecay n)
        atTop (nhds epsilonEnd)) := by
  constructor
  · simp only [loopStep]
    rw [if_neg (by push_neg; exact ⟨h40, h60⟩)]
    simp only [epsilonFormula]
    rw [show -1 * (episode : ℝ) / epsilonDecay = -(episode : ℝ) / epsilonDecay by ring]
  · intro hse hd
    constructor
    · intro a b hab
      simp only [epsilonFormula]
      have hcast : (a : ℝ) < b := by exact_mod_cast hab
      have hlt : -1 * (b : ℝ) / epsilonDecay < -1 * (a : ℝ) / epsilonDecay :=
        div_lt_div_of_pos_right (by linarith) hd
      have hexp := Real.exp_lt_exp.mpr hlt
      have := mul_lt_mul_of_pos_left hexp (sub_pos.mpr hse)
      linarith
    · have h1 : Tendsto (fun n : ℕ => (n : ℝ) / epsilonDecay) atTop atTop :=
        tendsto_natCast_atTop_atTop.atTop_div_const hd
      have h2 : Tendsto (fun n : ℕ => -1 * (n : ℝ) / epsilonDecay) atTop atBot := by
        refine (tendsto_neg_atTop_atBot.comp h1).congr fun n => ?_
        simp only [Function.comp]
        ring
      have h3 : Tendsto (fun n : ℕ => Real.exp (-1 * (n : ℝ) / epsilonDecay))
          atTop (nhds 0) := Real.tendsto_exp_atBot.comp h2
      have h4 := (h3.const_mul (epsilonStart - epsilonEnd)).const_add epsilonEnd
      simpa [epsilonFormula] using h4

/-- Witness for C6 with `epsilonStart = 1 > 0 = epsilonEnd`,
`epsilonDecay = 1 > 0`, at episode 0 on an accepted (45 ms) step. -/
theorem epsilon_decay_formula_monotone_convergent_witness :
    (0 : ℝ) < 1 ∧
    (loopStep Real.exp 64 40000 1 0 1 0 5 2 [] ⟨[], false, 93, 0, false⟩ 0 (Except.ok 0)
        ⟨[], false, 93, 45, false⟩).epsilon
      = 0 + (1 - 0) * Real.exp (-((0 : ℕ) : ℝ) / 1) ∧
    StrictAnti (fun n : ℕ => epsilonFormula Real.exp (1 : ℝ) 0 1 n) := by
  have h := epsilon_decay_formula_monotone_convergent 1 0 1 5 0 64 40000 2 []
    ⟨[], false, 93, 0, false⟩ 0 (Except.ok 0) ⟨[], false, 93, 45, false⟩
    (by norm_num) (by norm_num)
  exact ⟨by norm_num, h.1, (h.2 (by norm_num) (by norm_num)).1⟩

/- ### C10 (implicit): epsilon is constant across accepted steps of one episode -/

/-- C10: the epsilon written by an accepted step depends only on the
episode index — two accepted steps of the same episode, whatever their
buffers, rewards, previous epsilons, states, actions or optimization
outcomes, assign the same epsilon, namely the decay formula at that
episode; hence epsilon changes at most once per episode. -/
theorem epsilon_constant_within_episode
    (expFn : ℝ → ℝ) (episode : ℕ)
    (epsilonStart epsilonEnd epsilonDecay epsilon1 epsilon2 : ℝ)
    (batchSize1 capacity1 batchSize2 capacity2 : ℕ)
    (episodeReward1 episodeReward2 : ℚ)
    (memory1 memory2 : List Experience) (state1 state2 : GameState)
    (action1 action2 : ℕ) (optOutcome1 optOutcome2 : Except String ℚ)
    (nextState1 nextState2 : GameState)
    (h1a : 40 ≤ nextState1.time - state1.time)
    (h1b : nextState1.time - state1.time ≤ 60)
    (h2a : 40 ≤ nextState2.time - state2.time)
    (h2b : nextState2.time - state2.time ≤ 60) :
    (loopStep expFn batchSize1 capacity1 epsilonStart epsilonEnd epsilonDecay episode
        epsilon1 episodeReward1 memory1 state1 action1 optOutcome1 nextState1).epsilon
      = epsilonFormula expFn epsilonStart epsilonEnd epsilonDecay episode ∧
    (loopStep expFn batchSize1 capacity1 epsilonStart epsilonEnd epsilonDecay episode
        epsilon1 episodeReward1 memory1 state1 action1 optOutcome1 nextState1).epsilon
      = (loopStep expFn batchSize2 capacity2 epsilonStart epsilonEnd epsilonDecay episode
          epsilon2 episodeReward2 memory2 state2 action2 optOutcome2 nextState2).epsilon := by
  have key : ∀ (bs cap : ℕ) (eps : ℝ) (er : ℚ) (mem : List Experience)
      (st : GameState) (a : ℕ) (o : Except String ℚ) (nst : GameState),
      40 ≤ nst.time - st.time → nst.time - st.time ≤ 60 →
      (loopStep expFn bs cap epsilonStart epsilonEnd epsilonDecay episode
          eps er mem st a o nst).epsilon
        = epsilonFormula expFn epsilonStart epsilonEnd epsilonDecay episode := by
    intro bs cap eps er mem st a o nst ha hb
    simp only [loopStep]
    rw [if_neg (by push_neg; exact ⟨ha, hb⟩)]
  refine ⟨key _ _ _ _ _ _ _ _ _ h1a h1b, ?_⟩
  rw [key _ _ _ _ _ _ _ _ _ h1a h1b, key _ _ _ _ _ _ _ _ _ h2a h2b]

/-- Witness for C10: two accepted steps of episode 7 with different
buffers, previous epsilons, rewards and actions produce the same
epsilon. -/
theorem epsilon_constant_within_episode_witness :
    (loopStep Real.exp 64 40000 1 0 200 7 5 2 [] ⟨[], false, 93, 0, false⟩ 0 (Except.ok 0)
        ⟨[], false, 93, 45, false⟩).epsilon
      = (loopStep Real.exp 64 40000 1 0 200 7 9 0 [] ⟨[], false, 93, 100, false⟩ 1
          (Except.error "boom") ⟨[], false, 93, 150, true⟩).epsilon :=
  (epsilon_constant_within_episode Real.exp 7 1 0 200 5 9 64 40000 64 40000 2 0 [] []
    ⟨[], false, 93, 0, false⟩ ⟨[], false, 93, 100, false⟩ 0 1 (Except.ok 0)
    (Except.error "boom") ⟨[], false, 93, 45, false⟩ ⟨[], false, 93, 150, true⟩
    (by norm_num) (by norm_num) (by norm_num) (by norm_num)).2

/- ### C9: optimization exceptions are caught and do not derail the step -/

/-- C9: replacing a successful optimization outcome by an exception
changes nothing observable about the step except that the exception is
recorded (logged): buffer, reward accumulator, epsilon, warning and
stored transition are identical, and whenever the optimization block ran
(buffer at least `batchSize`), the exception is the one caught. -/
theorem optimization_error_caught_step_unaffected
    (expFn : ℝ → ℝ) (batchSize capacity : ℕ)
    (epsilonStart epsilonEnd epsilonDecay epsilon : ℝ) (episode : ℕ)
    (episodeReward : ℚ) (memory : List Experience) (state : GameState)
    (action : ℕ) (msg : String) (loss : ℚ) (nextState : GameState) :
    (loopStep expFn batchSize capacity epsilonStart epsilonEnd epsilonDecay episode
        epsilon episodeReward memory state action (Except.error msg) nextState).memory
      = (loopStep expFn batchSize capacity epsilonStart epsilonEnd epsilonDecay episode
          epsilon episodeReward memory state action (Except.ok loss) nextState).memory ∧
    (loopStep expFn batchSize capacity epsilonStart epsilonEnd epsilonDecay episode
        epsilon episodeReward memory state action (Except.error msg) nextState).episodeReward
      = (loopStep expFn batchSize capacity epsilonStart epsilonEnd epsilonDecay episode
          epsilon episodeReward memory state action (Except.ok loss) nextState).episodeReward ∧
    (loopStep expFn batchSize capacity epsilonStart epsilonEnd epsilonDecay episode
        epsilon episodeReward memory state action (Except.error msg) nextState).epsilon
      = (loopStep expFn batchSize capacity epsilonStart epsilonEnd epsilonDecay episode
          epsilon episodeReward memory state action (Except.ok loss) nextState).epsilon ∧
    (loopStep expFn batchSize capacity epsilonStart epsilonEnd epsilonDecay episode
        epsilon episodeReward memory state action (Except.error msg) nextState).warned
      = (loopStep expFn batchSize capacity epsilonStart epsilonEnd epsilonDecay episode
          epsilon episodeReward memory state action (Except.ok loss) nextState).warned ∧
    (loopStep expFn batchSize capacity epsilonStart epsilonEnd epsilonDecay episode
        epsilon episodeReward memory state action (Except.error msg) nextState).added
      = (loopStep expFn batchSize capacity epsilonStart epsilonEnd epsilonDecay episode
          epsilon episodeReward memory state action (Except.ok loss) nextState).added ∧
    (batchSize ≤ memory.length →
      (loopStep expFn batchSize capacity epsilonStart epsilonEnd epsilonDecay episode
          epsilon episodeReward memory state action (Except.error msg) nextState).caught
        = some msg) := by
  by_cases h : nextState.time - state.time < 40 ∨ 60 < nextState.time - state.time
  · simp only [loopStep, if_pos h]
    refine ⟨trivial, trivial, trivial, trivial, trivial, ?_⟩
    intro hbs
    simp [if_pos hbs]
  · simp only [loopStep, if_neg h]
    refine ⟨trivial, trivial, trivial, trivial, trivial, ?_⟩
    intro hbs
    simp [if_pos hbs]

/-- Witness for C9: with `batchSize = 1 ≤ 1` stored transition, the
failing and succeeding steps agree on the buffer and the exception is
caught. -/
theorem optimization_error_caught_step_unaffected_witness :
    (1 : ℕ) ≤ ([⟨[], 0, 0, [], false⟩] : List Experience).length ∧
    (loopStep Real.exp 1 40000 1 0 200 7 5 2 [⟨[], 0, 0, [], false⟩]
        ⟨[], false, 93, 0, false⟩ 0 (Except.error "shape mismatch")
        ⟨[], false, 93, 45, false⟩).memory
      = (loopStep Real.exp 1 40000 1 0 200 7 5 2 [⟨[], 0, 0, [], false⟩]
          ⟨[], false, 93, 0, false⟩ 0 (Except.ok 0) ⟨[], false, 93, 45, false⟩).memory ∧
    (loopStep Real.exp 1 40000 1 0 200 7 5 2 [⟨[], 0, 0, [], false⟩]
        ⟨[], false, 93, 0, false⟩ 0 (Except.error "shape mismatch")
        ⟨[], false, 93, 45, false⟩).caught = some "shape mismatch" := by
  have h := optimization_error_caught_step_unaffected Real.exp 1 40000 1 0 200 5 7 2
    [⟨[], 0, 0, [], false⟩] ⟨[], false, 93, 0, false⟩ 0 "shape mismatch" 0
    ⟨[], false, 93, 45, false⟩
  exact ⟨by decide, h.1, h.2.2.2.2.2 (by decide)⟩

/- ### C7: target synchronization schedule and weight copy -/

/-- The path `updateTargetModel` saves the online model to (the "main"
namespace). -/
def mainSavePath : String := "file://./dino-chrome-model/main"

/-- The path `updateTargetModel` saves the target model to (the "target"
namespace). -/
def targetSavePath : String := "file://./dino-chrome-model/target"

/-- `updateTargetModel(onlineModel, targetModel)`: sets the target
model's weights to the online model's weights, then saves the online
model under `main` and the (freshly overwritten) target model under
`target`.  Weights are abstract (`α`); the result is the target model's
new weights followed by the two save events `(path, weights saved)`.
The previous target weights are discarded. -/
def updateTargetModel {α : Type} (onlineWeights targetWeights : α) :
    α × (String × α) × (String × α) :=
  (onlineWeights, (mainSavePath, onlineWeights), (targetSavePath, onlineWeights))

/-- The schedule test run at the end of episode `episode` (0-based) in
`trainDinoModel`: `(episode + 1) % targetUpdateFrequency === 0`.  With
JavaScript `%`, a zero frequency yields `NaN === 0`, i.e. never fires,
hence the explicit zero guard. -/
def targetSyncDue (episode targetUpdateFrequency : ℕ) : Bool :=
  targetUpdateFrequency != 0 && (episode + 1) % targetUpdateFrequency == 0

/-- C7: for a positive frequency, the synchronizer runs after episode
`episode` exactly when the number of completed episodes `episode + 1` is
a multiple of `targetUpdateFrequency`; when it runs, the target model's
weights become the online model's weights, and both models are persisted
under the two distinct namespaces, each with the online weights. -/
theorem target_sync_schedule_and_weights {α : Type} (ow tw : α)
    (episode freq : ℕ) (hfreq : 0 < freq) :
    (targetSyncDue episode freq = true ↔ (episode + 1) % freq = 0) ∧
    (updateTargetModel ow tw).1 = ow ∧
    (updateTargetModel ow tw).2.1 = (mainSavePath, ow) ∧
    (updateTargetModel ow tw).2.2 = (targetSavePath, ow) ∧
    mainSavePath ≠ targetSavePath := by
  refine ⟨?_, rfl, rfl, rfl, ?_⟩
  · simp [targetSyncDue, Nat.pos_iff_ne_zero.mp hfreq]
  · decide

/-- Witness for C7 at `freq = 10`, after episode 9 (ten completed
episodes): the sync fires and the target weights equal the online
weights. -/
theorem target_sync_schedule_and_weights_witness :
    0 < 10 ∧ targetSyncDue 9 10 = true ∧ (updateTargetModel 3 7).1 = 3 :=
  ⟨by decide,
    (target_sync_schedule_and_weights 3 7 9 10 (by decide)).1.mpr (by decide),
    (target_sync_schedule_and_weights 3 7 9 10 (by decide)).2.1⟩
